import Mathlib

/-!
Shallow embedding of the edda mesh-radio terminal client core
(src/types.rs, src/router.rs, src/tui.rs) and proofs about the
routing logic and the session state machine.

Strings are modelled as lists of characters; the byte length of a Rust
String is the sum of the UTF-8 sizes of its characters.  Bounded tokio
channels are modelled as a capacity plus a queue; try_send succeeds
exactly when the queue is below capacity.  Rust panics (panic!, todo!,
assert!) are modelled by the error case of Except.
-/

set_option maxRecDepth 100000

namespace Edda

/-- Model of Rust String: a list of characters. -/
abbrev Str := List Char

/-- Byte length of a Rust String (sum of UTF-8 sizes), i.e. String::len. -/
def strByteLen (s : Str) : Nat := (s.map Char.utf8Size).sum

/-- Model of str::trim: drop whitespace from both ends. -/
def strTrim (s : Str) : Str :=
  ((s.dropWhile Char.isWhitespace).reverse.dropWhile Char.isWhitespace).reverse

/-- Bounded SPSC channel (tokio::sync::mpsc with a fixed capacity). -/
structure Channel (α : Type) where
  cap : Nat
  queue : List α
  deriving DecidableEq

/-- Non-blocking bounded send (tokio try_send): succeeds exactly when the
queue is below capacity; on failure the channel is unchanged. -/
def Channel.try_send {α : Type} (ch : Channel α) (x : α) : Channel α × Bool :=
  if ch.queue.length < ch.cap then ({ ch with queue := ch.queue ++ [x] }, true)
  else (ch, false)

/-- meshtastic protobufs User (only the field this core reads). -/
structure User where
  long_name : Str
  deriving DecidableEq

/-- meshtastic protobufs NodeInfo: the stable 32-bit node identifier plus
the optional user record; the remaining telemetry fields are never
consulted by the core under verification. -/
structure NodeInfo where
  num : Nat
  user : Option User
  deriving DecidableEq

/-- A mesh packet as carried by PayloadVariant::Packet; for this core it
is relevant only as the carrier of an inbound text message. -/
structure MeshPacket where
  from_num : Nat
  text : Str
  deriving DecidableEq

/-- from_radio::PayloadVariant of the meshtastic transport (src/router.rs
matches on every one of these constructors). -/
inductive PayloadVariant where
  | packet (p : MeshPacket)
  | myInfo (my_node_num : Nat)
  | nodeInfo (info : NodeInfo)
  | config
  | logRecord
  | configCompleteId
  | rebooted
  | moduleConfig
  | channel
  | queueStatus
  | xmodemPacket
  | metadata
  | mqttClientProxyMessage
  | fileInfo
  | clientNotification
  | deviceuiConfig
  deriving DecidableEq

/-- meshtastic protobufs FromRadio: a decoded frame with an optional
payload variant. -/
structure FromRadio where
  payload_variant : Option PayloadVariant
  deriving DecidableEq

/-- Events from the Meshtastic thread to the user interface
(src/types.rs). -/
inductive MeshEvent where
  | nodeAvailable (info : NodeInfo)
  | message (node_id : Nat) (message : Str)
  deriving DecidableEq

/-- Events from the user interface to the Meshtastic thread
(src/types.rs). -/
inductive UiEvent where
  | message (node_id : Nat) (message : Str)
  deriving DecidableEq

/-- Router state (src/router.rs): the optional self user record and the
optional self node number.  The ui_channel field is passed explicitly to
the handler functions. -/
structure Router where
  user : Option User
  node_num : Option Nat
  deriving DecidableEq

/-- Router::new. -/
def Router.new : Router := { user := none, node_num := none }

/-- Router::handle_packet_from_radio (src/router.rs lines 26 to 72).
The two panic! sites of the source are modelled as Except.error. -/
def Router.handle_packet_from_radio (r : Router) (ch : Channel MeshEvent)
    (packet : FromRadio) : Except String (Router × Channel MeshEvent) :=
  match packet.payload_variant with
  | none => .error ("Unexpected packet from_radio")
  | some variant =>
    match variant with
    | .packet _ => .ok (r, ch)
    | .myInfo my_node_num =>
      if r.node_num.isSome then
        .error ("Node number already set. Unexpected to set again.")
      else
        .ok ({ r with node_num := some my_node_num }, ch)
    | .nodeInfo info =>
      let r' := if r.node_num = some info.num then { r with user := info.user } else r
      let res := ch.try_send (MeshEvent.nodeAvailable info)
      .ok (r', res.1)
    | _ => .ok (r, ch)

/-- PacketRouter::handle_mesh_packet (src/router.rs lines 81 to 83): a
bare todo!, modelled as an error. -/
def Router.handle_mesh_packet (_r : Router) (_p : MeshPacket) :
    Except String Router :=
  .error ("not yet implemented")

/-- PacketRouter::source_node_id (src/router.rs lines 85 to 87). -/
def Router.source_node_id (r : Router) : Nat := r.node_num.getD 0

/-- AppState (src/types.rs). -/
inductive AppState where
  | loading
  | loaded
  deriving DecidableEq

/-- Focus (src/types.rs lines 32 to 37): the element of the UI that
currently receives keystrokes.  The source enumeration has exactly these
three constructors. -/
inductive Focus where
  | nodeList
  | conversation
  | input
  deriving DecidableEq

/-- Value of usize::MAX on a 64-bit target, used by the saturating
arithmetic of the ratatui widget state types. -/
def USIZE_MAX : Nat := 2 ^ 64 - 1

/-- ratatui ListState: the optional selected index. -/
structure ListState where
  selected : Option Nat
  deriving DecidableEq

/-- ratatui ListState::select_next: saturating increment, 0 from None. -/
def ListState.select_next (s : ListState) : ListState :=
  ⟨some (match s.selected with
         | none => 0
         | some i => min (i + 1) USIZE_MAX)⟩

/-- ratatui ListState::select_previous: saturating decrement, usize::MAX
from None. -/
def ListState.select_previous (s : ListState) : ListState :=
  ⟨some (match s.selected with
         | none => USIZE_MAX
         | some i => i - 1)⟩

/-- ratatui ScrollbarState: position and content length. -/
structure ScrollbarState where
  position : Nat
  content_length : Nat
  deriving DecidableEq

/-- ratatui ScrollbarState::next: increment clamped to the content. -/
def ScrollbarState.next (s : ScrollbarState) : ScrollbarState :=
  { s with position := min (min (s.position + 1) USIZE_MAX) (s.content_length - 1) }

/-- ratatui ScrollbarState::prev: saturating decrement. -/
def ScrollbarState.prev (s : ScrollbarState) : ScrollbarState :=
  { s with position := s.position - 1 }

/-- Session state of the terminal client (struct App, src/tui.rs lines 21
to 32).  The HashMap from node number to NodeInfo is modelled as a list
of records with pairwise distinct num fields, inserted by upsert; the
receiver end of the mesh channel is modelled by passing drained events to
update explicitly, and the transmitter is an explicit bounded channel. -/
structure App where
  vertical_scroll_state : ScrollbarState
  nodes : List NodeInfo
  input : Str
  focus : Option Focus
  node_list_state : ListState
  current_contact : Option NodeInfo
  state : AppState
  current_conversation : List Str
  transmitter : Channel UiEvent
  deriving DecidableEq

/-- App::new (src/tui.rs lines 35 to 48), parameterised by the capacity
of the outbound channel. -/
def App.new (cap : Nat) : App :=
  { vertical_scroll_state := ⟨0, 0⟩
    nodes := []
    input := []
    focus := none
    node_list_state := ⟨none⟩
    current_contact := none
    state := AppState.loading
    current_conversation := []
    transmitter := ⟨cap, []⟩ }

/-- HashMap::insert keyed by the num field of the record (src/tui.rs line
61): replace the entry with the same key, else add a new entry. -/
def upsertNode (nodes : List NodeInfo) (info : NodeInfo) : List NodeInfo :=
  if nodes.any (fun n => n.num == info.num) then
    nodes.map (fun n => if n.num == info.num then info else n)
  else
    nodes ++ [info]

/-- Ordered insert by the num field, ascending. -/
def insertByNum (n : NodeInfo) : List NodeInfo → List NodeInfo
  | [] => [n]
  | m :: ms => if n.num ≤ m.num then n :: m :: ms else m :: insertByNum n ms

/-- Stable ascending sort by the num field (Vec::sort_by_key with key num,
src/tui.rs line 52). -/
def sortByNum (l : List NodeInfo) : List NodeInfo := l.foldr insertByNum []

/-- App::get_sorted_nodes (src/tui.rs lines 50 to 54): collect the map
values and sort them ascending by node number. -/
def App.get_sorted_nodes (app : App) : List NodeInfo := sortByNum app.nodes

/-- One step of the drain loop of App::update (src/tui.rs lines 57 to
71). -/
def App.applyMeshEvent (app : App) (e : MeshEvent) : App :=
  match e with
  | .nodeAvailable info =>
    let is_empty := app.nodes.isEmpty
    let app1 := { app with nodes := upsertNode app.nodes info }
    let app2 := if is_empty then { app1 with node_list_state := ⟨some 0⟩ } else app1
    { app2 with state := AppState.loaded }
  | .message _ msg =>
    { app with current_conversation := app.current_conversation ++ [msg] }

/-- App::update (src/tui.rs lines 56 to 73): drain all currently pending
mesh events in arrival order, then mark the app loaded. -/
def App.update (app : App) (events : List MeshEvent) : App :=
  { events.foldl App.applyMeshEvent app with state := AppState.loaded }

/-- Key codes distinguished by the key handling of App::run. -/
inductive KeyCode where
  | esc
  | tab
  | backTab
  | enter
  | backspace
  | up
  | down
  | char (c : Char)
  | other
  deriving DecidableEq

/-- Tab focus cycling (src/tui.rs lines 96 to 103). -/
def advanceFocus : Option Focus → Option Focus
  | none => some Focus.nodeList
  | some Focus.nodeList => some Focus.conversation
  | some Focus.conversation => some Focus.input
  | some Focus.input => some Focus.nodeList

/-- BackTab focus cycling (src/tui.rs lines 104 to 111). -/
def retreatFocus : Option Focus → Option Focus
  | none => some Focus.nodeList
  | some Focus.nodeList => some Focus.input
  | some Focus.input => some Focus.conversation
  | some Focus.conversation => some Focus.nodeList

/-- Key handling block of App::run (src/tui.rs lines 87 to 180) for one
key event.  Returns ok none when run returns (quit), ok some of the next
state otherwise, and error for the assert! on the trimmed input length
(src/tui.rs line 158).  While loading only the quit key is examined. -/
def App.handle_key (app : App) (key : KeyCode) : Except String (Option App) :=
  if app.state = AppState.loading then
    if key = KeyCode.char 'q' then .ok none else .ok (some app)
  else
    match key with
    | .esc => .ok (some { app with focus := none })
    | .tab => .ok (some { app with focus := advanceFocus app.focus })
    | .backTab => .ok (some { app with focus := retreatFocus app.focus })
    | k =>
      match app.focus with
      | some Focus.nodeList =>
        if k = KeyCode.char 'j' ∨ k = KeyCode.down then
          .ok (some { app with node_list_state := app.node_list_state.select_next })
        else if k = KeyCode.char 'k' ∨ k = KeyCode.up then
          .ok (some { app with node_list_state := app.node_list_state.select_previous })
        else if k = KeyCode.enter then
          match app.node_list_state.selected with
          | some selected_index =>
            match app.get_sorted_nodes[selected_index]? with
            | some selected_node =>
              .ok (some { app with current_contact := some selected_node })
            | none => .ok (some app)
          | none => .ok (some app)
        else .ok (some app)
      | some Focus.conversation =>
        if k = KeyCode.char 'j' ∨ k = KeyCode.down then
          .ok (some { app with vertical_scroll_state := app.vertical_scroll_state.next })
        else if k = KeyCode.char 'k' ∨ k = KeyCode.up then
          .ok (some { app with vertical_scroll_state := app.vertical_scroll_state.prev })
        else .ok (some app)
      | some Focus.input =>
        match k with
        | .char c =>
          if strByteLen app.input < 237 then
            .ok (some { app with input := app.input ++ [c] })
          else
            .ok (some app)
        | .backspace => .ok (some { app with input := app.input.dropLast })
        | .enter =>
          let trimmed := strTrim app.input
          if strByteLen trimmed ≤ 237 then
            if trimmed ≠ [] then
              match app.current_contact with
              | some contact =>
                let res := app.transmitter.try_send
                    (UiEvent.message contact.num trimmed)
                if res.2 then
                  .ok (some { app with
                    transmitter := res.1
                    current_conversation := app.current_conversation ++ [trimmed]
                    input := [] })
                else
                  .ok (some { app with transmitter := res.1, input := [] })
              | none => .ok (some { app with input := [] })
            else
              .ok (some { app with input := [] })
          else
            .error ("assertion failed: trimmed.len() <= 237")
        | _ => .ok (some app)
      | none =>
        if k = KeyCode.char 'q' then .ok none else .ok (some app)

/-- States of the session loop reachable from the initial app state by
event drains (ticks) and key events, for a fixed outbound capacity. -/
inductive Reachable (cap : Nat) : App → Prop where
  | init : Reachable cap (App.new cap)
  | tick (a : App) (evs : List MeshEvent) :
      Reachable cap a → Reachable cap (a.update evs)
  | key (a b : App) (k : KeyCode) :
      Reachable cap a → a.handle_key k = .ok (some b) → Reachable cap b

/-! ## Relations and invariants used by the proofs -/

/-- Ascending comparison by node number, the key of sort_by_key. -/
def nodeLe (a b : NodeInfo) : Prop := a.num ≤ b.num

/-- Distinctness of node numbers: the HashMap key uniqueness. -/
def nodeNe (a b : NodeInfo) : Prop := a.num ≠ b.num

/-- Strict ascending comparison by node number. -/
def nodeLt (a b : NodeInfo) : Prop := a.num < b.num

instance : IsAntisymm NodeInfo nodeLt :=
  ⟨fun _ _ h1 h2 => absurd (Nat.lt_trans h1 h2) (Nat.lt_irrefl _)⟩

/-- Session invariant: directory entries have pairwise distinct node
numbers (HashMap keys are unique), and the selection cursor is defined
whenever the directory is non-empty. -/
def AppInv (app : App) : Prop :=
  app.nodes.Pairwise nodeNe
  ∧ (app.nodes ≠ [] → app.node_list_state.selected.isSome = true)

/-! ## Concrete sample states used by witnesses and counterexamples -/

/-- Sample loaded app state used by witnesses. -/
def loadedEmptyApp : App := (App.new 4).update []

/-- Loaded app with a selected contact, buffer hello, and a full outbound
channel (capacity one, one message already queued). -/
def c2FullApp : App :=
  { vertical_scroll_state := ⟨0, 0⟩
    nodes := [⟨42, none⟩]
    input := ['h', 'e', 'l', 'l', 'o']
    focus := some Focus.input
    node_list_state := ⟨some 0⟩
    current_contact := some ⟨42, none⟩
    state := AppState.loaded
    current_conversation := []
    transmitter := ⟨1, [UiEvent.message 7 ['x']]⟩ }

/-- Loaded app with a selected contact, buffer hello, and free capacity
on the outbound channel. -/
def c2FreeApp : App := { c2FullApp with transmitter := ⟨4, []⟩ }

/-- App after one PeerAvailable event for identifier 5 from the initial
state. -/
def c6App1 : App := (App.new 4).update [MeshEvent.nodeAvailable ⟨5, none⟩]

/-- App after a further PeerAvailable event for identifier 3. -/
def c6App2 : App := c6App1.update [MeshEvent.nodeAvailable ⟨3, none⟩]

/-- App after one PeerAvailable event for identifier 1 from the initial
state. -/
def c7App0 : App := (App.new 4).update [MeshEvent.nodeAvailable ⟨1, none⟩]

/-- The same app focused on the node list. -/
def c7App1 : App := { c7App0 with focus := some Focus.nodeList }

/-- The same app after one next command moved the cursor out of range. -/
def c7App2 : App := { c7App1 with node_list_state := ⟨some 1⟩ }

/-- Buffer of 236 one-byte characters. -/
def aChars : Str := List.replicate 236 'a'

/-- A four-byte character (the grinning face emoji, U+1F600). -/
def emojiChar : Char := Char.ofNat 128512

/-- Loaded app with Focus input and a 236-byte buffer. -/
def c8App : App :=
  { vertical_scroll_state := ⟨0, 0⟩
    nodes := [⟨42, none⟩]
    input := aChars
    focus := some Focus.input
    node_list_state := ⟨some 0⟩
    current_contact := some ⟨42, none⟩
    state := AppState.loaded
    current_conversation := []
    transmitter := ⟨4, []⟩ }

/-- The same app after the four-byte character was accepted. -/
def c8App2 : App := { c8App with input := aChars ++ [emojiChar] }

/-- Loaded app with one directory entry and selection index 5. -/
def c10App : App :=
  { vertical_scroll_state := ⟨0, 0⟩
    nodes := [⟨1, none⟩]
    input := []
    focus := some Focus.nodeList
    node_list_state := ⟨some 5⟩
    current_contact := none
    state := AppState.loaded
    current_conversation := []
    transmitter := ⟨4, []⟩ }

/-! ## Helper lemmas about sorting -/

/-- Ordered insert is a permutation of cons. -/
theorem insertByNum_perm (n : NodeInfo) (l : List NodeInfo) :
    (insertByNum n l).Perm (n :: l) := by
  induction l with
  | nil => simp [insertByNum]
  | cons m ms ih =>
    simp only [insertByNum]
    split
    · exact List.Perm.refl _
    · exact (ih.cons m).trans (List.Perm.swap n m ms)

/-- The sorted view is a permutation of the directory. -/
theorem sortByNum_perm (l : List NodeInfo) : (sortByNum l).Perm l := by
  induction l with
  | nil => exact List.Perm.nil
  | cons a t ih =>
    simp only [sortByNum, List.foldr_cons]
    exact (insertByNum_perm a _).trans (ih.cons a)

/-- Ordered insert preserves sortedness by node number. -/
theorem insertByNum_pairwise (n : NodeInfo) (l : List NodeInfo)
    (h : l.Pairwise nodeLe) : (insertByNum n l).Pairwise nodeLe := by
  induction l with
  | nil => simp [insertByNum]
  | cons m ms ih =>
    rw [List.pairwise_cons] at h
    simp only [insertByNum]
    split
    · next hle =>
      rw [List.pairwise_cons]
      refine ⟨?_, List.pairwise_cons.2 h⟩
      intro b hb
      rcases List.mem_cons.1 hb with hb | hb
      · exact hb ▸ hle
      · exact Nat.le_trans hle (h.1 b hb)
    · next hgt =>
      have hmn : nodeLe m n := Nat.le_of_lt (Nat.lt_of_not_le hgt)
      rw [List.pairwise_cons]
      refine ⟨?_, ih h.2⟩
      intro b hb
      rcases List.mem_cons.1 ((insertByNum_perm n ms).mem_iff.1 hb) with hb | hb
      · exact hb ▸ hmn
      · exact h.1 b hb

/-- The sorted view is sorted ascending (non-strictly) by node number. -/
theorem sortByNum_pairwise (l : List NodeInfo) :
    (sortByNum l).Pairwise nodeLe := by
  induction l with
  | nil => simp [sortByNum]
  | cons a t ih =>
    simp only [sortByNum, List.foldr_cons]
    exact insertByNum_pairwise a _ ih

/-! ## Helper lemmas about the session state machine -/

/-- Upsert preserves key distinctness. -/
theorem upsertNode_pairwise (nodes : List NodeInfo) (info : NodeInfo)
    (h : nodes.Pairwise nodeNe) : (upsertNode nodes info).Pairwise nodeNe := by
  unfold upsertNode
  split
  · rw [List.pairwise_map]
    refine h.imp ?_
    intro a b hab
    simp only [nodeNe] at hab ⊢
    by_cases ha : a.num = info.num <;> by_cases hb : b.num = info.num <;>
      simp [ha, hb] <;> omega
  · next hany =>
    rw [List.pairwise_append]
    refine ⟨h, List.pairwise_singleton _ _, ?_⟩
    intro a ha b hb
    rw [List.mem_singleton] at hb
    subst hb
    simp only [List.any_eq_true, beq_iff_eq, not_exists, not_and] at hany
    exact fun e => absurd ha (by simpa [e] using hany a)

/-- Upsert never empties the directory. -/
theorem upsertNode_ne_nil (nodes : List NodeInfo) (info : NodeInfo) :
    upsertNode nodes info ≠ [] := by
  unfold upsertNode
  split
  · next hany =>
    cases nodes with
    | nil => simp at hany
    | cons a t => simp
  · simp

/-- The nodes component after one mesh event. -/
theorem applyMeshEvent_nodes (app : App) (e : MeshEvent) :
    (app.applyMeshEvent e).nodes
      = match e with
        | .nodeAvailable info => upsertNode app.nodes info
        | .message _ _ => app.nodes := by
  cases e with
  | nodeAvailable info =>
    simp only [App.applyMeshEvent]
    split <;> rfl
  | message n m => rfl

/-- The selection component after one mesh event. -/
theorem applyMeshEvent_sel (app : App) (e : MeshEvent) :
    (app.applyMeshEvent e).node_list_state
      = match e with
        | .nodeAvailable _ =>
            if app.nodes.isEmpty then ⟨some 0⟩ else app.node_list_state
        | .message _ _ => app.node_list_state := by
  cases e with
  | nodeAvailable info =>
    simp only [App.applyMeshEvent]
    split <;> simp_all
  | message n m => rfl

/-- One mesh event preserves the session invariant. -/
theorem applyMeshEvent_inv (app : App) (e : MeshEvent) (h : AppInv app) :
    AppInv (app.applyMeshEvent e) := by
  obtain ⟨h1, h2⟩ := h
  cases e with
  | nodeAvailable info =>
    constructor
    · rw [applyMeshEvent_nodes]
      exact upsertNode_pairwise _ _ h1
    · rw [applyMeshEvent_sel]
      intro _
      by_cases hn : app.nodes = []
      · simp [hn]
      · simp only [List.isEmpty_eq_true, hn, if_neg]
        exact h2 hn
  | message n m => exact ⟨h1, h2⟩

/-- A whole tick drain preserves the session invariant. -/
theorem update_inv (app : App) (evs : List MeshEvent) (h : AppInv app) :
    AppInv (app.update evs) := by
  unfold App.update
  have : ∀ (a : App), AppInv a → AppInv (evs.foldl App.applyMeshEvent a) := by
    induction evs with
    | nil => intro a ha; exact ha
    | cons e t ih =>
      intro a ha
      exact ih _ (applyMeshEvent_inv a e ha)
  exact this app h

/-- A key event never modifies the directory and either leaves the
selection unchanged or sets it to a defined index. -/
theorem handle_key_ok (app b : App) (k : KeyCode)
    (h : app.handle_key k = .ok (some b)) :
    b.nodes = app.nodes
    ∧ (b.node_list_state = app.node_list_state
       ∨ b.node_list_state.selected.isSome = true) := by
  unfold App.handle_key at h
  repeat' split at h
  all_goals try simp only [] at h
  all_goals (repeat split at h)
  all_goals simp only [Except.ok.injEq, Option.some.injEq, reduceCtorEq] at h
  all_goals subst h
  all_goals simp [ListState.select_next, ListState.select_previous]

/-- A key event preserves the session invariant. -/
theorem handle_key_inv (app b : App) (k : KeyCode)
    (h : app.handle_key k = .ok (some b)) (hi : AppInv app) : AppInv b := by
  obtain ⟨hn, hs⟩ := handle_key_ok app b k h
  refine ⟨hn ▸ hi.1, ?_⟩
  intro hne
  rcases hs with hs | hs
  · exact hs ▸ hi.2 (hn ▸ hne)
  · exact hs

/-- Every reachable session state satisfies the invariant. -/
theorem reachable_inv (cap : Nat) (app : App) (h : Reachable cap app) :
    AppInv app := by
  induction h with
  | init =>
    constructor
    · simp [App.new]
    · intro hne; exact absurd rfl hne
  | tick a evs _ ih => exact update_inv a evs ih
  | key a b k _ hk ih => exact handle_key_inv a b k hk ih

/-- The nodes component of a tick drain of PeerAvailable events is the
fold of upserts. -/
theorem update_nodes_foldl (l : List NodeInfo) :
    ∀ (app : App),
      (app.update (l.map MeshEvent.nodeAvailable)).nodes
        = l.foldl upsertNode app.nodes := by
  induction l with
  | nil => intro app; rfl
  | cons a t ih =>
    intro app
    simp only [List.map_cons, App.update, List.foldl_cons] at ih ⊢
    rw [ih (app.applyMeshEvent (MeshEvent.nodeAvailable a)),
        applyMeshEvent_nodes]

/-- Folding upserts of records with fresh distinct keys appends them. -/
theorem foldl_upsert_append (l : List NodeInfo) :
    ∀ (nodes : List NodeInfo),
      ((nodes ++ l).map NodeInfo.num).Nodup →
      l.foldl upsertNode nodes = nodes ++ l := by
  induction l with
  | nil => intro nodes _; simp
  | cons a t ih =>
    intro nodes h
    have hmem : ¬ a.num ∈ nodes.map NodeInfo.num := by
      rw [List.map_append, List.nodup_append] at h
      intro hm
      exact h.2.2 hm (by simp)
    have hup : upsertNode nodes a = nodes ++ [a] := by
      unfold upsertNode
      rw [if_neg]
      simp only [List.any_eq_true, beq_iff_eq, not_exists, not_and]
      intro x hx e
      exact hmem (e ▸ List.mem_map_of_mem NodeInfo.num hx)
    rw [List.foldl_cons, hup, ih (nodes ++ [a]) (by simpa using h),
        List.append_assoc]
    rfl

/-! ## Claim C1 -/

/-- Claim C1 (code_bug evidence): contrary to the claim that every inbound
text message frame yields exactly one MessageReceived event, the Router
emits nothing for such frames: a frame whose payload variant is a mesh
packet is a no-op (state and UI channel returned unchanged, so no
MeshEvent.message is enqueued), and the dedicated mesh-packet handler is
an unimplemented todo that panics when invoked. -/
theorem c1_router_drops_text_messages :
    (∀ (r : Router) (ch : Channel MeshEvent) (mp : MeshPacket),
      r.handle_packet_from_radio ch ⟨some (PayloadVariant.packet mp)⟩ = .ok (r, ch))
    ∧ (∀ (r : Router) (mp : MeshPacket),
      r.handle_mesh_packet mp = .error ("not yet implemented")) := by
  constructor
  · intro r ch mp; rfl
  · intro r mp; rfl

/-! ## Claim C3 -/

/-- Claim C3 (code_bug evidence): contrary to the claim that a frame with
an absent payload variant is surfaced as a recoverable logged error, the
Router panics on it (the source marks this with a TODO asking for a
logger statement instead), so the process does not continue. -/
theorem c3_absent_payload_panics :
    ∀ (r : Router) (ch : Channel MeshEvent),
      r.handle_packet_from_radio ch ⟨none⟩
        = .error ("Unexpected packet from_radio") := by
  intro r ch; rfl

/-! ## Claim C4 -/

/-- Claim C4 (code_bug evidence): the first own-identity frame sets the
node number, but contrary to the claim that a second assignment is logged
and ignored with the session continuing, the Router panics whenever the
node number is already set. -/
theorem c4_second_identity_panics :
    (∀ (u : Option User) (ch : Channel MeshEvent) (a : Nat),
      Router.handle_packet_from_radio ⟨u, none⟩ ch ⟨some (PayloadVariant.myInfo a)⟩
        = .ok (⟨u, some a⟩, ch))
    ∧ (∀ (u : Option User) (m : Nat) (ch : Channel MeshEvent) (b : Nat),
      Router.handle_packet_from_radio ⟨u, some m⟩ ch ⟨some (PayloadVariant.myInfo b)⟩
        = .error ("Node number already set. Unexpected to set again.")) := by
  constructor
  · intro u ch a; rfl
  · intro u m ch b; rfl

/-! ## Claim C5 -/

/-- Claim C5 counterexample: starting from Focus none, six consecutive
advance (Tab) commands yield Focus input, not Focus nodeList as the claim
states; the actual ring has three elements, and there is no Search
variant at all. -/
theorem c5_counterexample :
    advanceFocus (advanceFocus (advanceFocus (advanceFocus
        (advanceFocus (advanceFocus none))))) = some Focus.input
    ∧ advanceFocus (advanceFocus (advanceFocus (advanceFocus
        (advanceFocus (advanceFocus none))))) ≠ some Focus.nodeList := by
  exact ⟨rfl, by decide⟩

/-- Claim C5 amended: advance cycles Focus forward through the fixed ring
of the three variants nodeList, conversation, input; retreat is the exact
inverse permutation of advance on that ring; advance and retreat both map
none to nodeList; and starting from Focus none, four consecutive advance
commands return Focus to nodeList.  In a loaded app the Tab and BackTab
keys apply exactly these permutations. -/
theorem c5_amended_focus_ring :
    (∀ f : Focus, retreatFocus (advanceFocus (some f)) = some f)
    ∧ (∀ f : Focus, advanceFocus (retreatFocus (some f)) = some f)
    ∧ advanceFocus none = some Focus.nodeList
    ∧ retreatFocus none = some Focus.nodeList
    ∧ advanceFocus (advanceFocus (advanceFocus (advanceFocus none)))
        = some Focus.nodeList
    ∧ (∀ app : App, app.state = AppState.loaded →
        app.handle_key KeyCode.tab
            = .ok (some { app with focus := advanceFocus app.focus })
        ∧ app.handle_key KeyCode.backTab
            = .ok (some { app with focus := retreatFocus app.focus })) := by
  refine ⟨?_, ?_, rfl, rfl, rfl, ?_⟩
  · intro f; cases f <;> rfl
  · intro f; cases f <;> rfl
  · intro app h
    constructor <;> simp [App.handle_key, h]

/-- Claim C5 witness: the amended theorem applied to a concrete loaded
app. -/
theorem c5_focus_ring_witness :
    loadedEmptyApp.state = AppState.loaded
    ∧ (loadedEmptyApp.handle_key KeyCode.tab
        = .ok (some { loadedEmptyApp with focus := advanceFocus loadedEmptyApp.focus })
      ∧ loadedEmptyApp.handle_key KeyCode.backTab
        = .ok (some { loadedEmptyApp with focus := retreatFocus loadedEmptyApp.focus })) :=
  ⟨rfl, c5_amended_focus_ring.2.2.2.2.2 loadedEmptyApp rfl⟩

/-! ## Claim C2 -/

/-- Claim C2 counterexample: committing hello with Focus input and a
selected contact while the bounded channel is full enqueues nothing and
appends nothing to the conversation log (the source pushes the local echo
only inside the success branch of try_send); only the buffer is cleared.
The claim states exactly one message is enqueued and the echo is appended
exactly once. -/
theorem c2_counterexample :
    c2FullApp.handle_key KeyCode.enter = .ok (some { c2FullApp with input := [] })
    ∧ ({ c2FullApp with input := [] } : App).transmitter.queue
        = [UiEvent.message 7 ['x']]
    ∧ ({ c2FullApp with input := [] } : App).current_conversation = [] := by
  exact ⟨rfl, rfl, rfl⟩

/-- Claim C2 amended: committing the input buffer with Focus input, a
selected contact and non-empty trimmed text of at most 237 bytes clears
the buffer in all cases; when the bounded channel has free capacity it
also enqueues exactly one SendMessage with the contact identifier and the
trimmed text and appends the trimmed text to the conversation log exactly
once, while when the channel is full nothing is enqueued and nothing is
appended. -/
theorem c2_amended_commit (app : App) (c : NodeInfo)
    (h1 : app.state = AppState.loaded) (h2 : app.focus = some Focus.input)
    (h3 : app.current_contact = some c)
    (h4 : strTrim app.input ≠ [])
    (h5 : strByteLen (strTrim app.input) ≤ 237) :
    app.handle_key KeyCode.enter = .ok (some (
      if app.transmitter.queue.length < app.transmitter.cap then
        { app with
          transmitter := ⟨app.transmitter.cap,
            app.transmitter.queue ++ [UiEvent.message c.num (strTrim app.input)]⟩
          current_conversation := app.current_conversation ++ [strTrim app.input]
          input := [] }
      else
        { app with input := [] })) := by
  by_cases hc : app.transmitter.queue.length < app.transmitter.cap
  · simp [App.handle_key, h1, h2, h3, h4, h5, Channel.try_send, hc]
  · simp [App.handle_key, h1, h2, h3, h4, h5, Channel.try_send, hc]

/-- Claim C2 witness: the amended theorem applied to the concrete app
with free capacity. -/
theorem c2_commit_witness :
    c2FreeApp.state = AppState.loaded
    ∧ c2FreeApp.focus = some Focus.input
    ∧ c2FreeApp.current_contact = some ⟨42, none⟩
    ∧ strTrim c2FreeApp.input ≠ []
    ∧ strByteLen (strTrim c2FreeApp.input) ≤ 237
    ∧ c2FreeApp.handle_key KeyCode.enter = .ok (some (
      if c2FreeApp.transmitter.queue.length < c2FreeApp.transmitter.cap then
        { c2FreeApp with
          transmitter := ⟨c2FreeApp.transmitter.cap,
            c2FreeApp.transmitter.queue
              ++ [UiEvent.message (NodeInfo.mk 42 none).num (strTrim c2FreeApp.input)]⟩
          current_conversation := c2FreeApp.current_conversation ++ [strTrim c2FreeApp.input]
          input := [] }
      else
        { c2FreeApp with input := [] })) :=
  ⟨rfl, rfl, rfl, by decide, by decide,
   c2_amended_commit c2FreeApp ⟨42, none⟩ rfl rfl rfl (by decide) (by decide)⟩

/-! ## Claim C6 -/

/-- Claim C6 counterexample: after the directory becomes non-empty with
identifier 5 the cursor is 0 and resolves to 5; a later PeerAvailable for
the different identifier 3 leaves the positional cursor at 0, which now
resolves to 3.  The identifier resolved by the existing selection
changed, contrary to the claim; it is the position that stayed fixed. -/
theorem c6_counterexample :
    c6App1.node_list_state.selected = some 0
    ∧ (c6App1.get_sorted_nodes.map NodeInfo.num)[0]? = some 5
    ∧ c6App2.node_list_state.selected = some 0
    ∧ (c6App2.get_sorted_nodes.map NodeInfo.num)[0]? = some 3
    ∧ (3 : Nat) ≠ 5 := by
  exact ⟨rfl, rfl, rfl, rfl, by decide⟩

/-- Claim C6 amended: when the directory transitions from empty to
non-empty the selection cursor is set to index 0, the first element of
the sorted directory; every subsequent PeerAvailable event leaves the
positional selection cursor unchanged.  The selection is positional, not
identity stable: the identifier it resolves to can change when a peer
with a smaller identifier arrives. -/
theorem c6_amended_selection (app : App) (info : NodeInfo) :
    (app.nodes = [] →
      (app.applyMeshEvent (MeshEvent.nodeAvailable info)).node_list_state.selected
          = some 0
      ∧ (app.applyMeshEvent (MeshEvent.nodeAvailable info)).get_sorted_nodes = [info])
    ∧ (app.nodes ≠ [] →
      (app.applyMeshEvent (MeshEvent.nodeAvailable info)).node_list_state
          = app.node_list_state) := by
  constructor
  · intro h
    simp [App.applyMeshEvent, h, upsertNode, App.get_sorted_nodes, sortByNum, insertByNum]
  · intro h
    match hn : app.nodes with
    | [] => exact absurd hn h
    | a :: l => simp [App.applyMeshEvent, hn]

/-- Claim C6 witness: the amended theorem applied at the initial app for
the empty case and at the one-node app for the non-empty case. -/
theorem c6_selection_witness :
    ((App.new 4).nodes = []
      ∧ (((App.new 4).applyMeshEvent
            (MeshEvent.nodeAvailable ⟨5, none⟩)).node_list_state.selected = some 0
        ∧ ((App.new 4).applyMeshEvent
            (MeshEvent.nodeAvailable ⟨5, none⟩)).get_sorted_nodes = [⟨5, none⟩]))
    ∧ (c6App1.nodes ≠ []
      ∧ (c6App1.applyMeshEvent (MeshEvent.nodeAvailable ⟨3, none⟩)).node_list_state
          = c6App1.node_list_state) :=
  ⟨⟨rfl, (c6_amended_selection (App.new 4) ⟨5, none⟩).1 rfl⟩,
   ⟨by decide, (c6_amended_selection c6App1 ⟨3, none⟩).2 (by decide)⟩⟩

/-! ## Claim C8 -/

/-- Claim C8 (code_bug evidence): with the buffer at 236 bytes the length
guard (strictly below 237) accepts a four-byte character, the buffer
grows to 240 bytes, exceeding the 237-byte single-frame limit, and the
commit-time assertion that the trimmed text is at most 237 bytes fails,
panicking the process.  The guard counts bytes but inserts whole
characters of up to four bytes. -/
theorem c8_input_bound_violation :
    strByteLen c8App.input = 236
    ∧ c8App.handle_key (KeyCode.char emojiChar) = .ok (some c8App2)
    ∧ strByteLen c8App2.input = 240
    ∧ c8App2.handle_key KeyCode.enter
        = .error ("assertion failed: trimmed.len() <= 237") := by
  exact ⟨by decide, rfl, by decide, rfl⟩

/-! ## Claim C10 -/

/-- Claim C10: a commit with Focus nodeList whose selection index is not
below the number of directory entries is a total no-op: the sorted-view
lookup returns none for an out-of-range index, so the state, including
the current contact, is returned unchanged and nothing panics. -/
theorem c10_out_of_range_commit_noop (app : App) (i : Nat)
    (h1 : app.state = AppState.loaded) (h2 : app.focus = some Focus.nodeList)
    (h3 : app.node_list_state.selected = some i)
    (h4 : app.get_sorted_nodes.length ≤ i) :
    app.handle_key KeyCode.enter = .ok (some app) := by
  simp [App.handle_key, h1, h2, h3, List.getElem?_eq_none h4]

/-- Claim C10 witness: the theorem applied to the concrete app with an
out-of-range selection. -/
theorem c10_commit_noop_witness :
    c10App.state = AppState.loaded
    ∧ c10App.focus = some Focus.nodeList
    ∧ c10App.node_list_state.selected = some 5
    ∧ c10App.get_sorted_nodes.length ≤ 5
    ∧ c10App.handle_key KeyCode.enter = .ok (some c10App) :=
  ⟨rfl, rfl, rfl, by decide,
   c10_out_of_range_commit_noop c10App 5 rfl rfl rfl (by decide)⟩

/-! ## Claim C7 -/

/-- Claim C7 counterexample: with one directory entry and the cursor at
0, one next command moves the cursor to 1, which is not a valid index
into the sorted directory of length 1: the next command is not clamped
at the directory bounds at the state machine level, and the validity
invariant fails in this reachable state. -/
theorem c7_counterexample :
    c7App0.handle_key KeyCode.tab = .ok (some c7App1)
    ∧ c7App1.handle_key (KeyCode.char 'j') = .ok (some c7App2)
    ∧ c7App2.nodes ≠ []
    ∧ c7App2.node_list_state.selected = some 1
    ∧ c7App2.get_sorted_nodes.length = 1
    ∧ ¬ (1 : Nat) < c7App2.get_sorted_nodes.length := by
  refine ⟨rfl, rfl, by decide, rfl, rfl, by decide⟩

/-- Claim C7 amended: in every reachable state with a non-empty directory
the selection cursor is defined; with Focus nodeList the previous command
moves the cursor down by one saturating at zero and the next command
moves it up by one saturating only at the usize maximum, without an upper
clamp at the directory bounds, so the cursor may exceed the current
directory length (the render layer clamps it and an out-of-range commit
is a no-op); neither command wraps around. -/
theorem c7_amended_navigation :
    (∀ (cap : Nat) (app : App), Reachable cap app →
      app.nodes ≠ [] → app.node_list_state.selected.isSome = true)
    ∧ (∀ (app : App) (i : Nat), app.state = AppState.loaded →
      app.focus = some Focus.nodeList → app.node_list_state.selected = some i →
      app.handle_key (KeyCode.char 'j')
          = .ok (some { app with node_list_state := ⟨some (min (i + 1) USIZE_MAX)⟩ })
      ∧ app.handle_key (KeyCode.char 'k')
          = .ok (some { app with node_list_state := ⟨some (i - 1)⟩ })) := by
  constructor
  · intro cap app h
    exact (reachable_inv cap app h).2
  · intro app i h1 h2 h3
    constructor <;>
      simp [App.handle_key, h1, h2, h3, ListState.select_next,
        ListState.select_previous]

/-- Claim C7 witness: the amended theorem applied to the concrete
reachable one-node app and to the focused app with cursor 0. -/
theorem c7_navigation_witness :
    (c7App0.nodes ≠ [] ∧ c7App0.node_list_state.selected.isSome = true)
    ∧ (c7App1.state = AppState.loaded
      ∧ c7App1.focus = some Focus.nodeList
      ∧ c7App1.node_list_state.selected = some 0
      ∧ c7App1.handle_key (KeyCode.char 'j')
          = .ok (some { c7App1 with node_list_state := ⟨some (min (0 + 1) USIZE_MAX)⟩ })
      ∧ c7App1.handle_key (KeyCode.char 'k')
          = .ok (some { c7App1 with node_list_state := ⟨some (0 - 1)⟩ })) :=
  ⟨⟨by decide,
    c7_amended_navigation.1 4 c7App0
      (Reachable.tick (App.new 4) [MeshEvent.nodeAvailable ⟨1, none⟩] Reachable.init)
      (by decide)⟩,
   ⟨rfl, rfl, rfl,
    (c7_amended_navigation.2 c7App1 0 rfl rfl rfl).1,
    (c7_amended_navigation.2 c7App1 0 rfl rfl rfl).2⟩⟩

/-! ## Claim C9 -/

/-- Claim C9: in every reachable session state the directory as iterated
for display is strictly ascending by node identifier, and for tick drains
of PeerAvailable events with pairwise distinct identifiers the displayed
order is independent of the arrival order of the events. -/
theorem c9_directory_sorted :
    (∀ (cap : Nat) (app : App), Reachable cap app →
      app.get_sorted_nodes.Pairwise nodeLt)
    ∧ (∀ (cap : Nat) (l1 l2 : List NodeInfo), l1.Perm l2 →
      (l1.map NodeInfo.num).Nodup →
      ((App.new cap).update (l1.map MeshEvent.nodeAvailable)).get_sorted_nodes
        = ((App.new cap).update (l2.map MeshEvent.nodeAvailable)).get_sorted_nodes) := by
  have hsymm : ∀ {x y : NodeInfo}, nodeNe x y → nodeNe y x := fun h => Ne.symm h
  have key : ∀ (l : List NodeInfo), l.Pairwise nodeNe →
      (sortByNum l).Pairwise nodeLt := by
    intro l h1
    have hs : (sortByNum l).Pairwise nodeLe := sortByNum_pairwise l
    have hne : (sortByNum l).Pairwise nodeNe :=
      (List.Perm.pairwise_iff hsymm (sortByNum_perm l)).2 h1
    exact (hs.and hne).imp (fun hab => Nat.lt_of_le_of_ne hab.1 hab.2)
  have hnodupPairwise : ∀ (l : List NodeInfo), (l.map NodeInfo.num).Nodup →
      l.Pairwise nodeNe := by
    intro l h
    rw [List.Nodup, List.pairwise_map] at h
    exact h
  constructor
  · intro cap app h
    exact key app.nodes (reachable_inv cap app h).1
  · intro cap l1 l2 hperm hnodup
    have hnodup2 : (l2.map NodeInfo.num).Nodup :=
      ((hperm.map NodeInfo.num).nodup_iff).1 hnodup
    have e1 : ((App.new cap).update (l1.map MeshEvent.nodeAvailable)).nodes = l1 := by
      rw [update_nodes_foldl]
      exact foldl_upsert_append l1 [] (by simpa using hnodup)
    have e2 : ((App.new cap).update (l2.map MeshEvent.nodeAvailable)).nodes = l2 := by
      rw [update_nodes_foldl]
      exact foldl_upsert_append l2 [] (by simpa using hnodup2)
    have hp : (sortByNum l1).Perm (sortByNum l2) :=
      ((sortByNum_perm l1).trans hperm).trans (sortByNum_perm l2).symm
    have hs1 : (sortByNum l1).Pairwise nodeLt := key l1 (hnodupPairwise l1 hnodup)
    have hs2 : (sortByNum l2).Pairwise nodeLt := key l2 (hnodupPairwise l2 hnodup2)
    show sortByNum _ = sortByNum _
    rw [e1, e2]
    exact List.eq_of_perm_of_sorted hp hs1 hs2

/-- Claim C9 witness: the theorem applied to the initial reachable state
and to the concrete two-element permuted event lists. -/
theorem c9_directory_sorted_witness :
    ((App.new 4).get_sorted_nodes.Pairwise nodeLt)
    ∧ (([⟨1, none⟩, ⟨2, none⟩] : List NodeInfo).map NodeInfo.num).Nodup
    ∧ ((App.new 4).update (([⟨1, none⟩, ⟨2, none⟩] : List NodeInfo).map
          MeshEvent.nodeAvailable)).get_sorted_nodes
        = ((App.new 4).update (([⟨2, none⟩, ⟨1, none⟩] : List NodeInfo).map
          MeshEvent.nodeAvailable)).get_sorted_nodes :=
  ⟨c9_directory_sorted.1 4 (App.new 4) Reachable.init,
   by decide,
   c9_directory_sorted.2 4 ([⟨1, none⟩, ⟨2, none⟩] : List NodeInfo)
     ([⟨2, none⟩, ⟨1, none⟩] : List NodeInfo)
     (List.Perm.swap (⟨2, none⟩ : NodeInfo) (⟨1, none⟩ : NodeInfo) [])
     (by decide)⟩

end Edda
